import Mathlib

/-!
Verification of the clip-planner script `ffmpeg_convert.py`.

The script parses CLI arguments, probes the input file's streams, validates
frame bounds and the audio-track selection, converts frame indices to time
offsets with exact rational arithmetic (`fractions.Fraction`), assembles the
ffmpeg invocation (the plan) and finally runs the external tool.

The embedding below translates the script's own logic.  External collaborators
are abstracted as data: the probe result is the list of stream descriptions the
external probe returned (each with its codec type, frame count and frame rate
already parsed from the probe's strings), and `os.path.isfile` is a boolean.
All failure points of the Python code — explicit `raise` statements as well as
the runtime errors it can hit (subscripting a missing video probe, `int()` on a
malformed string, division by a zero frame rate) — are modelled as `Except`
errors, since any Python exception aborts the run before `ffmpeg.run`.
-/

/-- The failure kinds of a run: the script's own `raise Exception(...)` sites
plus the Python runtime errors reachable in `main`. -/
inductive Err where
  | probeError
  | multipleVideoTracks
  | frameOutOfBounds
  | invalidRange
  | audioTrackOutOfRange
  | inputNotFound
  | valueError
  | noneType
  | zeroDivision
  | externalTool
deriving DecidableEq, Repr

/-- One entry of `probe['streams']`: the fields the script reads.  `nb_frames`
and `r_frame_rate` arrive as strings from ffprobe and are read through `int()`
and `fractions.Fraction()`; the embedding carries the parsed values. -/
structure StreamInfo where
  codec_type : String
  nb_frames : Int
  r_frame_rate : ℚ
deriving DecidableEq, Repr

/-- The parsed CLI arguments (`argparse` result).  `audio_tracks` is the raw
comma-separated string, split and parsed later in `main` just as the script
does. -/
structure Args where
  input : String
  start_frame : Option Int
  end_frame : Option Int
  audio_tracks : Option String
  copy_video : Bool
  no_loudnorm : Bool
  output : Option String
deriving DecidableEq, Repr

/-- The audio part of the assembled ffmpeg graph: either the input's audio
passed through untouched (`input_stream.audio`), or an `amix` filter whose
inputs are the streams `a:i` for each listed index in order (`inputs` equals
the length of that list), optionally followed by a `loudnorm` filter. -/
inductive AudioOut where
  | passthrough
  | mix (tracks : List Int) (loudnorm : Bool)
deriving DecidableEq, Repr

/-- The resolved invocation plan handed to `ffmpeg.run`: input seek (`ss`) and
duration (`t`) options, still as exact rationals at this boundary, the video
codec choice, the audio graph, the audio codec and the output path. -/
structure Plan where
  ss : Option ℚ
  t : Option ℚ
  vcodec_copy : Bool
  audio : AudioOut
  acodec : String
  output_file : String
deriving DecidableEq, Repr

/-- Split a character list at every occurrence of `sep`
(Python `str.split(sep)`, which yields `['']` on the empty string and keeps
empty chunks). -/
def split_on (sep : Char) : List Char → List (List Char)
  | [] => [[]]
  | c :: cs =>
    if c = sep then [] :: split_on sep cs
    else
      match split_on sep cs with
      | [] => [[c]]
      | g :: gs => (c :: g) :: gs

/-- Accumulate a decimal numeral left to right; `none` on any non-digit. -/
def digits_to_nat (acc : Nat) : List Char → Option Nat
  | [] => some acc
  | c :: cs =>
    if c.isDigit then digits_to_nat (acc * 10 + (c.toNat - 48)) cs
    else none

/-- Python `int(str)` on the numerals produced by splitting the audio-track
argument: an optional sign followed by at least one digit; anything else
raises `ValueError`. -/
def parse_int_chars : List Char → Option Int
  | [] => none
  | '-' :: cs =>
    if cs = [] then none else (digits_to_nat 0 cs).map (fun n => -(n : Int))
  | cs => (digits_to_nat 0 cs).map (fun n => (n : Int))

/-- `list(map(int, args.audio_tracks.split(',')))`; `none` models the
`ValueError` raised when some chunk is not an integer numeral. -/
def parse_audio_tracks (s : String) : Option (List Int) :=
  (split_on ',' s.data).mapM parse_int_chars

/-- The loop body of `get_probe`, carrying the `video_probe` and
`audio_probes` accumulators.  A stream classified as video when `video_probe`
is already set raises `Multiple video track.`. -/
def get_probe_loop : List StreamInfo → Option StreamInfo → List StreamInfo →
    Except Err (Option StreamInfo × List StreamInfo)
  | [], vp, aps => Except.ok (vp, aps)
  | s :: rest, vp, aps =>
    if s.codec_type = "video" then
      match vp with
      | some _ => Except.error Err.multipleVideoTracks
      | none => get_probe_loop rest (some s) aps
    else if s.codec_type = "audio" then
      get_probe_loop rest vp (aps ++ [s])
    else
      get_probe_loop rest vp aps

/-- `get_probe`: split the probed streams into the unique optional video
stream and the ordered audio streams. -/
def get_probe (streams : List StreamInfo) :
    Except Err (Option StreamInfo × List StreamInfo) :=
  get_probe_loop streams none []

/-- One bound check of `main`: `b < 0 or int(video_probe['nb_frames']) < b`
raises `frame out of bounds`; the short-circuit `or` means a missing video
probe is only subscripted (raising `TypeError`) when `b ≥ 0`. -/
def check_bound (vp : Option StreamInfo) : Option Int → Except Err Unit
  | none => Except.ok ()
  | some b =>
    if b < 0 then Except.error Err.frameOutOfBounds
    else
      match vp with
      | none => Except.error Err.noneType
      | some v =>
        if v.nb_frames < b then Except.error Err.frameOutOfBounds
        else Except.ok ()

/-- Lines 61–69 of the script: start-frame bound, end-frame bound, then the
`start >= end` range check when both are given. -/
def validate_frame_range (vp : Option StreamInfo) (sf ef : Option Int) :
    Except Err Unit :=
  match check_bound vp sf with
  | Except.error e => Except.error e
  | Except.ok _ =>
    match check_bound vp ef with
    | Except.error e => Except.error e
    | Except.ok _ =>
      match sf, ef with
      | some s, some e =>
        if s ≥ e then Except.error Err.invalidRange else Except.ok ()
      | _, _ => Except.ok ()

/-- The per-index membership test `i_at not in range(len(audio_probes))`
over the whole selection; one error kind, so the order of the loop does not
matter. -/
def check_audio_indices (n : Nat) (ats : List Int) : Except Err Unit :=
  if ats.all (fun i => decide (0 ≤ i ∧ i < (n : Int))) then Except.ok ()
  else Except.error Err.audioTrackOutOfRange

/-- Lines 70–76: when `--audio-tracks` is given, split on commas, parse each
chunk as an integer and check every index against the audio-stream count;
the parsed selection `i_ats` is returned for plan construction. -/
def validate_audio_selection (n : Nat) (tracks : Option String) :
    Except Err (Option (List Int)) :=
  match tracks with
  | none => Except.ok none
  | some s =>
    match parse_audio_tracks s with
    | none => Except.error Err.valueError
    | some ats =>
      match check_audio_indices n ats with
      | Except.error e => Except.error e
      | Except.ok _ => Except.ok (some ats)

/-- `os.path.basename`: the part after the last `/`. -/
def basename_chars (cs : List Char) : List Char :=
  (split_on '/' cs).getLastD []

/-- Index of the last `.` in a character list, if any. -/
def last_dot_idx : List Char → Option Nat
  | [] => none
  | c :: cs =>
    match last_dot_idx cs with
    | some i => some (i + 1)
    | none => if c = '.' then some 0 else none

/-- `os.path.splitext` on a basename (no separators left): split before the
last dot, unless every character before that dot is itself a dot (so
`.bashrc` keeps its leading-dot name whole). -/
def splitext_chars (cs : List Char) : List Char × List Char :=
  match last_dot_idx cs with
  | none => (cs, [])
  | some i =>
    if (cs.take i).any (fun c => decide (c ≠ '.')) then (cs.take i, cs.drop i)
    else (cs, [])

/-- Lines 83–85: the derived output name
`f"{base}.converted{ext}"` from `splitext(basename(input))`. -/
def default_output (input : String) : String :=
  let b := basename_chars input.data
  let p := splitext_chars b
  String.mk (p.1 ++ (".converted".data ++ p.2))

/-- Lines 80–85: `if args.output:` — Python truthiness, so `None` and the
empty string both fall back to the derived name. -/
def output_file_of (args : Args) : String :=
  match args.output with
  | some o => if o = "" then default_output args.input else o
  | none => default_output args.input

/-- Lines 88–98: start time `sf / r`, end time `ef / r`, and duration
`end − start` when both are present, in exact rational arithmetic. -/
def compute_time_window (r : ℚ) (sf ef : Option Int) :
    Option ℚ × Option ℚ :=
  let start_time := sf.map (fun s => (s : ℚ) / r)
  let duration :=
    match ef with
    | none => none
    | some e =>
      match start_time with
      | some st => some ((e : ℚ) / r - st)
      | none => some ((e : ℚ) / r)
  (start_time, duration)

/-- The whole of `main` up to (and excluding) `ffmpeg.run`: validations in
script order, then plan assembly.  `streams` is what the external probe
returned, `isfile` is `os.path.isfile(args.input)`.  Subscripting a missing
video probe models the `TypeError` Python raises at line 88 when the file has
no video stream, and a zero frame rate models `ZeroDivisionError` at the
first frame-to-time division.  (Named `main` in the script; Lean reserves
that name for executables.) -/
def main_plan (args : Args) (streams : List StreamInfo) (isfile : Bool) :
    Except Err Plan :=
  match get_probe streams with
  | Except.error e => Except.error e
  | Except.ok (video_probe, audio_probes) =>
    match validate_frame_range video_probe args.start_frame args.end_frame with
    | Except.error e => Except.error e
    | Except.ok _ =>
      match validate_audio_selection audio_probes.length args.audio_tracks with
      | Except.error e => Except.error e
      | Except.ok i_ats =>
        if isfile then
          let output_file := output_file_of args
          match video_probe with
          | none => Except.error Err.noneType
          | some v =>
            if (args.start_frame.isSome ∨ args.end_frame.isSome) ∧
                v.r_frame_rate = 0 then
              Except.error Err.zeroDivision
            else
              let w := compute_time_window v.r_frame_rate
                args.start_frame args.end_frame
              Except.ok
                { ss := w.1
                  t := w.2
                  vcodec_copy := args.copy_video
                  audio :=
                    match i_ats with
                    | none => AudioOut.passthrough
                    | some ats => AudioOut.mix ats (!args.no_loudnorm)
                  acodec :=
                    match i_ats with
                    | none => "copy"
                    | some _ => "aac"
                  output_file := output_file }
        else Except.error Err.inputNotFound

/-- Whether the `loudnorm` filter appears in the assembled audio graph. -/
def loudnorm_applied : AudioOut → Bool
  | AudioOut.passthrough => false
  | AudioOut.mix _ ln => ln

/-- The stream labels fed to the `amix` filter (empty for passthrough). -/
def mix_tracks : AudioOut → List Int
  | AudioOut.passthrough => []
  | AudioOut.mix ats _ => ats

/-- The `inputs=` argument handed to `amix` (`len(_audio_streams)`). -/
def mix_inputs (a : AudioOut) : Nat := (mix_tracks a).length

/-- How many times the external transcode tool runs for a given planning
result: `ffmpeg.run` is reached exactly when no exception was raised. -/
def tool_invocations : Except Err Plan → Nat
  | Except.ok _ => 1
  | Except.error _ => 0

/-! ### Characterization lemmas shared by the claim theorems -/

/-- Once a video stream has been recorded, any further video stream raises
`multipleVideoTracks`; otherwise the remaining audio streams are appended in
order. -/
lemma get_probe_loop_some (ss : List StreamInfo) (v0 : StreamInfo)
    (acc : List StreamInfo) :
    get_probe_loop ss (some v0) acc =
      if ss.any (fun s => decide (s.codec_type = "video")) then
        Except.error Err.multipleVideoTracks
      else
        Except.ok (some v0,
          acc ++ ss.filter (fun s => decide (s.codec_type = "audio"))) := by
  induction ss generalizing acc with
  | nil => simp [get_probe_loop]
  | cons s rest ih =>
    by_cases hv : s.codec_type = "video"
    · simp [get_probe_loop, hv]
    · by_cases ha : s.codec_type = "audio"
      · simp [get_probe_loop, hv, ha, ih]
      · simp [get_probe_loop, hv, ha, ih]

/-- Full characterization of the probe loop started with no video yet. -/
lemma get_probe_loop_none (ss acc : List StreamInfo) :
    get_probe_loop ss none acc =
      if 2 ≤ ss.countP (fun s => decide (s.codec_type = "video")) then
        Except.error Err.multipleVideoTracks
      else
        Except.ok (ss.find? (fun s => decide (s.codec_type = "video")),
          acc ++ ss.filter (fun s => decide (s.codec_type = "audio"))) := by
  induction ss generalizing acc with
  | nil => simp [get_probe_loop]
  | cons s rest ih =>
    by_cases hv : s.codec_type = "video"
    · have hna : s.codec_type ≠ "audio" := by simp [hv]
      rcases hany : rest.any (fun s => decide (s.codec_type = "video")) with _ | _
      · have hcp : rest.countP (fun s => decide (s.codec_type = "video")) = 0 := by
          rw [List.countP_eq_zero]
          intro a ha
          by_contra hva
          have : rest.any (fun s => decide (s.codec_type = "video")) = true :=
            List.any_eq_true.mpr ⟨a, ha, hva⟩
          simp [hany] at this
        simp [get_probe_loop, hv, hna, get_probe_loop_some, hany, hcp,
          List.countP_cons, List.find?, List.filter]
      · have hcp : 1 ≤ rest.countP (fun s => decide (s.codec_type = "video")) := by
          obtain ⟨a, ha, hva⟩ := List.any_eq_true.mp hany
          calc 1 = [a].countP (fun s => decide (s.codec_type = "video")) := by
                simp [List.countP_cons, hva]
            _ ≤ rest.countP (fun s => decide (s.codec_type = "video")) := by
                apply List.Sublist.countP_le
                simpa using List.singleton_sublist.mpr ha
        have hl : get_probe_loop (s :: rest) none acc =
            Except.error Err.multipleVideoTracks := by
          simp [get_probe_loop, hv, get_probe_loop_some, hany]
        have hceq : (s :: rest).countP
              (fun s => decide (s.codec_type = "video")) =
            rest.countP (fun s => decide (s.codec_type = "video")) + 1 := by
          simp [List.countP_cons, hv]
        have h2 : 2 ≤ (s :: rest).countP
            (fun s => decide (s.codec_type = "video")) := by omega
        rw [hl, if_pos h2]
    · by_cases ha : s.codec_type = "audio"
      · simp [get_probe_loop, hv, ha, ih, List.countP_cons, List.find?,
          List.filter]
      · simp [get_probe_loop, hv, ha, ih, List.countP_cons, List.find?,
          List.filter]

/-- `get_probe` in closed form. -/
lemma get_probe_char (ss : List StreamInfo) :
    get_probe ss =
      if 2 ≤ ss.countP (fun s => decide (s.codec_type = "video")) then
        Except.error Err.multipleVideoTracks
      else
        Except.ok (ss.find? (fun s => decide (s.codec_type = "video")),
          ss.filter (fun s => decide (s.codec_type = "audio"))) := by
  simpa using get_probe_loop_none ss []

/-- `validate_frame_range` raises `frameOutOfBounds` exactly when some given
bound is negative or exceeds the frame count (video stream present). -/
lemma vfr_foob_iff (v : StreamInfo) (sf ef : Option Int) :
    validate_frame_range (some v) sf ef = Except.error Err.frameOutOfBounds ↔
      (∃ s, sf = some s ∧ (s < 0 ∨ v.nb_frames < s)) ∨
      (∃ e, ef = some e ∧ (e < 0 ∨ v.nb_frames < e)) := by
  rcases sf with _ | s <;> rcases ef with _ | e
  · simp [validate_frame_range, check_bound]
  · simp only [validate_frame_range, check_bound]
    split_ifs <;> simp_all
  · simp only [validate_frame_range, check_bound]
    split_ifs <;> simp_all
  · simp only [validate_frame_range, check_bound]
    split_ifs <;> simp_all

/-- A successful frame-range validation with both bounds given implies the
range was strictly increasing. -/
lemma vfr_ok_range (vp : Option StreamInfo) (s e : Int)
    (h : validate_frame_range vp (some s) (some e) = Except.ok ()) :
    s < e := by
  by_contra hc
  push_neg at hc
  rcases h1 : check_bound vp (some s) with e1 | u1
  · have hv : validate_frame_range vp (some s) (some e) = Except.error e1 := by
      unfold validate_frame_range
      rw [h1]
    rw [hv] at h
    simp at h
  · rcases h2 : check_bound vp (some e) with e2 | u2
    · have hv : validate_frame_range vp (some s) (some e) =
          Except.error e2 := by
        unfold validate_frame_range
        rw [h1, h2]
      rw [hv] at h
      simp at h
    · have hv : validate_frame_range vp (some s) (some e) =
          Except.error Err.invalidRange := by
        unfold validate_frame_range
        rw [h1, h2]
        simp [ge_iff_le, hc]
      rw [hv] at h
      simp at h

/-- The per-index audio check raises `audioTrackOutOfRange` exactly when some
requested index lies outside the audio-stream positions. -/
lemma cai_error_iff (n : Nat) (ats : List Int) :
    check_audio_indices n ats = Except.error Err.audioTrackOutOfRange ↔
      ∃ i ∈ ats, ¬(0 ≤ i ∧ i < (n : Int)) := by
  by_cases h : ats.all (fun i => decide (0 ≤ i ∧ i < (n : Int))) = true
  · rw [List.all_eq_true] at h
    simp only [check_audio_indices]
    rw [if_pos (List.all_eq_true.mpr h)]
    simp only [reduceCtorEq, false_iff]
    push_neg
    intro i hi
    have := h i hi
    exact of_decide_eq_true this
  · simp only [check_audio_indices]
    rw [if_neg h]
    simp only [true_iff]
    rw [List.all_eq_true] at h
    push_neg at h
    obtain ⟨i, hi, hd⟩ := h
    exact ⟨i, hi, fun hc => hd (decide_eq_true hc)⟩

/-- Anatomy of a successful run of `main`: every validation stage passed and
the plan is the assembled record. -/
lemma main_plan_ok (args : Args) (streams : List StreamInfo) (isfile : Bool)
    (plan : Plan) (hm : main_plan args streams isfile = Except.ok plan) :
    ∃ v auds i_ats,
      get_probe streams = Except.ok (some v, auds) ∧
      validate_frame_range (some v) args.start_frame args.end_frame =
        Except.ok () ∧
      validate_audio_selection auds.length args.audio_tracks =
        Except.ok i_ats ∧
      isfile = true ∧
      ¬((args.start_frame.isSome ∨ args.end_frame.isSome) ∧
        v.r_frame_rate = 0) ∧
      plan =
        { ss := (compute_time_window v.r_frame_rate
            args.start_frame args.end_frame).1
          t := (compute_time_window v.r_frame_rate
            args.start_frame args.end_frame).2
          vcodec_copy := args.copy_video
          audio :=
            match i_ats with
            | none => AudioOut.passthrough
            | some ats => AudioOut.mix ats (!args.no_loudnorm)
          acodec :=
            match i_ats with
            | none => "copy"
            | some _ => "aac"
          output_file := output_file_of args } := by
  unfold main_plan at hm
  split at hm
  · simp at hm
  · next vp auds hg =>
    split at hm
    · simp at hm
    · next u hvf =>
      split at hm
      · simp at hm
      · next i_ats hva =>
        split at hm
        · next hf =>
          split at hm
          · simp at hm
          · next v hv =>
            split at hm
            · simp at hm
            · next hz =>
              simp only [Except.ok.injEq] at hm
              exact ⟨hv, auds, i_ats, hg, hvf, hva, hf, hz, hm.symm⟩
        · simp at hm

/-! ### Concrete fixtures used by witnesses and counterexamples -/

/-- A probed video stream: 300 frames at the NTSC rate 30000/1001. -/
def vstream300 : StreamInfo :=
  { codec_type := "video", nb_frames := 300, r_frame_rate := 30000/1001 }

/-- A probed audio stream (the script reads nothing but its codec type). -/
def astream0 : StreamInfo :=
  { codec_type := "audio", nb_frames := 0, r_frame_rate := 0 }

/-- A second probed audio stream. -/
def astream1 : StreamInfo :=
  { codec_type := "audio", nb_frames := 0, r_frame_rate := 0 }

/-- CLI arguments for the 30..90 trim scenario. -/
def c1_args : Args :=
  { input := "dir/a.mp4", start_frame := some 30, end_frame := some 90,
    audio_tracks := none, copy_video := false, no_loudnorm := false,
    output := none }

/-- The plan the script assembles for `c1_args` on `vstream300`. -/
def c1_plan : Plan :=
  { ss := some ((30 : ℚ) / (30000/1001))
    t := some ((90 : ℚ) / (30000/1001) - (30 : ℚ) / (30000/1001))
    vcodec_copy := false
    audio := AudioOut.passthrough
    acodec := "copy"
    output_file := "a.converted.mp4" }

/-! ### Claim theorems -/

/-- C1: for a probed video with an exact rational frame rate and frame bounds
0 ≤ startFrame < endFrame ≤ totalFrames, every plan `main` produces carries
duration exactly (endFrame − startFrame) / frameRate in exact rational
arithmetic; the plan still holds rationals, so floating conversion happens
only past this boundary. -/
theorem duration_exact (args : Args) (streams : List StreamInfo)
    (isfile : Bool) (v : StreamInfo) (auds : List StreamInfo) (sf ef : Int)
    (plan : Plan)
    (hg : get_probe streams = Except.ok (some v, auds))
    (hs : args.start_frame = some sf) (he : args.end_frame = some ef)
    (_h0 : 0 ≤ sf) (_hlt : sf < ef) (_hub : ef ≤ v.nb_frames)
    (hm : main_plan args streams isfile = Except.ok plan) :
    plan.t = some (((ef : ℚ) - (sf : ℚ)) / v.r_frame_rate) := by
  obtain ⟨v', auds', i_ats, hg', hvf, hva, hf, hz, hp⟩ :=
    main_plan_ok args streams isfile plan hm
  rw [hg] at hg'
  simp only [Except.ok.injEq, Prod.mk.injEq, Option.some.injEq] at hg'
  obtain ⟨hv, -⟩ := hg'
  subst hv
  rw [hp]
  simp [compute_time_window, hs, he, div_sub_div_same]

/-- C1 witness: frame rate 30000/1001, frames 30..90; the duration is
exactly 1001/500 = 2.002 seconds. -/
theorem duration_exact_witness :
    c1_plan.t =
      some ((((90 : Int) : ℚ) - ((30 : Int) : ℚ)) / vstream300.r_frame_rate)
    ∧ (((90 : Int) : ℚ) - ((30 : Int) : ℚ)) / vstream300.r_frame_rate =
      1001/500 := by
  constructor
  · exact duration_exact c1_args [vstream300] true vstream300 [] 30 90 c1_plan
      (by simp [get_probe, get_probe_loop, vstream300]) rfl rfl
      (by decide) (by decide) (by decide)
      (by simp [main_plan, get_probe, get_probe_loop, validate_frame_range,
        check_bound, validate_audio_selection, output_file_of, default_output,
        basename_chars, splitext_chars, last_dot_idx, split_on,
        compute_time_window, c1_args, vstream300, c1_plan])
  · norm_num [vstream300]

/-- C7: converting frame N to a time offset (N / frameRate) and back
(time × frameRate) recovers N exactly in the rational arithmetic the script
uses before the final floating conversion. -/
theorem frame_time_roundtrip (n : Int) (r : ℚ) (h : r ≠ 0) (t : ℚ)
    (ht : (compute_time_window r (some n) none).1 = some t) :
    t * r = (n : ℚ) := by
  simp [compute_time_window] at ht
  rw [← ht]
  exact div_mul_cancel₀ _ h

/-- C7 witness: frame 30 at rate 30000/1001 round-trips exactly. -/
theorem frame_time_roundtrip_witness :
    (((30 : Int) : ℚ) / ((30000 : ℚ)/1001)) * ((30000 : ℚ)/1001) =
      ((30 : Int) : ℚ) :=
  frame_time_roundtrip 30 ((30000 : ℚ)/1001) (by norm_num)
    (((30 : Int) : ℚ) / ((30000 : ℚ)/1001)) (by simp [compute_time_window])

/-- C8: probing fails with `multipleVideoTracks` when more than one video
stream is present; with at most one it succeeds and returns the optional
video stream together with the ordered audio streams. -/
theorem probe_video_spec (streams : List StreamInfo) :
    (1 < streams.countP (fun s => decide (s.codec_type = "video")) →
      get_probe streams = Except.error Err.multipleVideoTracks)
    ∧ (streams.countP (fun s => decide (s.codec_type = "video")) ≤ 1 →
      get_probe streams = Except.ok
        (streams.find? (fun s => decide (s.codec_type = "video")),
         streams.filter (fun s => decide (s.codec_type = "audio")))) := by
  constructor
  · intro hc
    rw [get_probe_char, if_pos (by omega)]
  · intro hc
    rw [get_probe_char, if_neg (by omega)]

/-- C8 witness: two video streams are rejected; one video and one audio
stream probe successfully in order. -/
theorem probe_video_spec_witness :
    get_probe [vstream300, vstream300] = Except.error Err.multipleVideoTracks
    ∧ get_probe [vstream300, astream0] =
        Except.ok (some vstream300, [astream0]) := by
  constructor
  · exact (probe_video_spec [vstream300, vstream300]).1 (by decide)
  · have h := (probe_video_spec [vstream300, astream0]).2 (by decide)
    simpa [List.find?, List.filter, vstream300, astream0] using h

/-- CLI arguments mixing audio tracks 0 and 1, loudnorm enabled. -/
def c2_args : Args :=
  { input := "in.mp4", start_frame := none, end_frame := none,
    audio_tracks := some "0,1", copy_video := false, no_loudnorm := false,
    output := none }

/-- The plan assembled for `c2_args` on a video with two audio streams. -/
def c2_plan : Plan :=
  { ss := none, t := none, vcodec_copy := false,
    audio := AudioOut.mix [0, 1] true, acodec := "aac",
    output_file := "in.converted.mp4" }

/-- Concrete evaluation of the selection parser on "0,1". -/
lemma parse01 : parse_audio_tracks "0,1" = some [0, 1] := by decide

/-- The script's run on `c2_args` with one video and two audio streams. -/
lemma c2_run : main_plan c2_args [vstream300, astream0, astream1] true =
    Except.ok c2_plan := by
  simp [main_plan, get_probe, get_probe_loop, validate_frame_range,
    check_bound, validate_audio_selection, parse01,
    check_audio_indices, output_file_of,
    default_output, basename_chars, splitext_chars, last_dot_idx, split_on,
    compute_time_window, c2_args, vstream300, astream0, astream1, c2_plan]

/-- C2: without a track selection the plan passes all audio through with the
stream-copy codec and never applies loudnorm, whatever the no-loudnorm flag;
with a selection it mixes exactly the parsed tracks into one stream encoded
as 'aac', applying loudnorm iff the no-loudnorm flag is unset. -/
theorem audio_handling_spec (args : Args) (streams : List StreamInfo)
    (isfile : Bool) (plan : Plan)
    (hm : main_plan args streams isfile = Except.ok plan) :
    (args.audio_tracks = none →
      plan.audio = AudioOut.passthrough ∧ plan.acodec = "copy" ∧
      loudnorm_applied plan.audio = false)
    ∧ (∀ s ats, args.audio_tracks = some s →
        parse_audio_tracks s = some ats →
        plan.audio = AudioOut.mix ats (!args.no_loudnorm) ∧
        plan.acodec = "aac" ∧
        loudnorm_applied plan.audio = !args.no_loudnorm) := by
  obtain ⟨v, auds, i_ats, hg, hvf, hva, hf, hz, hplan⟩ :=
    main_plan_ok args streams isfile plan hm
  constructor
  · intro hat
    rw [hat] at hva
    rcases i_ats with _ | ats
    · rw [hplan]
      simp [loudnorm_applied]
    · simp [validate_audio_selection] at hva
  · intro s ats hat hparse
    rw [hat] at hva
    rcases i_ats with _ | ats'
    · exfalso
      simp only [validate_audio_selection, hparse] at hva
      rcases hch : check_audio_indices auds.length ats with e | u <;>
        simp [hch] at hva
    · have hia : ats' = ats := by
        simp only [validate_audio_selection, hparse] at hva
        rcases hch : check_audio_indices auds.length ats with e | u <;>
          simp [hch] at hva
        exact hva.symm
      subst hia
      rw [hplan]
      simp [loudnorm_applied]

/-- C2 witness: selection "0,1" on two audio streams mixes both, re-encodes
with 'aac' and applies loudnorm; no selection copies all audio with no
loudnorm. -/
theorem audio_handling_spec_witness :
    (c2_plan.audio = AudioOut.mix [0, 1] (!c2_args.no_loudnorm) ∧
      c2_plan.acodec = "aac" ∧
      loudnorm_applied c2_plan.audio = !c2_args.no_loudnorm)
    ∧ (c1_plan.audio = AudioOut.passthrough ∧ c1_plan.acodec = "copy" ∧
      loudnorm_applied c1_plan.audio = false) := by
  constructor
  · exact (audio_handling_spec c2_args [vstream300, astream0, astream1] true
      c2_plan c2_run).2 "0,1" [0, 1] rfl (by decide)
  · exact (audio_handling_spec c1_args [vstream300] true c1_plan
      (by simp [main_plan, get_probe, get_probe_loop, validate_frame_range,
        check_bound, validate_audio_selection, output_file_of, default_output,
        basename_chars, splitext_chars, last_dot_idx, split_on,
        compute_time_window, c1_args, vstream300, c1_plan])).1 rfl

/-- A request whose start frame is beyond the end frame and also beyond the
video's 300 frames. -/
def c3_args : Args :=
  { input := "in.mp4", start_frame := some 500, end_frame := some 400,
    audio_tracks := none, copy_video := false, no_loudnorm := false,
    output := none }

/-- A request with in-bounds frames in reversed order (start 90, end 30). -/
def c3b_args : Args :=
  { input := "in.mp4", start_frame := some 90, end_frame := some 30,
    audio_tracks := none, copy_video := false, no_loudnorm := false,
    output := none }

/-- C3 counterexample: start 500 ≥ end 400 on a 300-frame video — both
bounds given with start ≥ end, yet planning fails with the out-of-bounds
error raised by the earlier bound check, not with InvalidRangeError. -/
theorem invalid_range_counterexample :
    c3_args.start_frame = some 500 ∧ c3_args.end_frame = some 400 ∧
    (400 : Int) ≤ 500 ∧
    main_plan c3_args [vstream300] true = Except.error Err.frameOutOfBounds ∧
    main_plan c3_args [vstream300] true ≠ Except.error Err.invalidRange := by
  have heq : main_plan c3_args [vstream300] true =
      Except.error Err.frameOutOfBounds := by
    simp [main_plan, get_probe, get_probe_loop, validate_frame_range,
      check_bound, c3_args, vstream300]
  exact ⟨rfl, rfl, by norm_num, heq, by simp [heq]⟩

/-- C3 (amended): when both frame bounds are given with start ≥ end and both
bounds are within 0..totalFrames of the successfully probed video stream,
planning fails with InvalidRangeError and the external tool is never
invoked.  (The in-bounds restriction is forced by the counterexample: an
out-of-bounds bound is reported as frameOutOfBounds first.) -/
theorem invalid_range_amended (args : Args) (streams : List StreamInfo)
    (isfile : Bool) (v : StreamInfo) (auds : List StreamInfo) (sf ef : Int)
    (hg : get_probe streams = Except.ok (some v, auds))
    (hs : args.start_frame = some sf) (he : args.end_frame = some ef)
    (hge : ef ≤ sf)
    (hs0 : 0 ≤ sf) (hsu : sf ≤ v.nb_frames)
    (he0 : 0 ≤ ef) (heu : ef ≤ v.nb_frames) :
    main_plan args streams isfile = Except.error Err.invalidRange ∧
    tool_invocations (main_plan args streams isfile) = 0 := by
  have h1 : check_bound (some v) (some sf) = Except.ok () := by
    simp only [check_bound]
    rw [if_neg (not_lt.mpr hs0), if_neg (not_lt.mpr hsu)]
  have h2 : check_bound (some v) (some ef) = Except.ok () := by
    simp only [check_bound]
    rw [if_neg (not_lt.mpr he0), if_neg (not_lt.mpr heu)]
  have hvf : validate_frame_range (some v) args.start_frame args.end_frame =
      Except.error Err.invalidRange := by
    rw [hs, he]
    simp only [validate_frame_range, h1, h2]
    simp [ge_iff_le, hge]
  have hmain : main_plan args streams isfile =
      Except.error Err.invalidRange := by
    simp only [main_plan, hg, hvf]
  refine ⟨hmain, ?_⟩
  rw [hmain]
  rfl

/-- C3 witness: start 90, end 30, both within the 300-frame bound. -/
theorem invalid_range_amended_witness :
    main_plan c3b_args [vstream300] true = Except.error Err.invalidRange ∧
    tool_invocations (main_plan c3b_args [vstream300] true) = 0 :=
  invalid_range_amended c3b_args [vstream300] true vstream300 [] 90 30
    (by simp [get_probe, get_probe_loop, vstream300]) rfl rfl (by decide)
    (by decide) (by decide) (by decide) (by decide)

/-- C4: with a video stream present, frame-range validation raises
frameOutOfBounds if and only if some given bound is negative or exceeds the
video's total frame count; within-limit bounds pass this check and absent
bounds are never checked. -/
theorem frame_bounds_iff (v : StreamInfo) (sf ef : Option Int) :
    validate_frame_range (some v) sf ef = Except.error Err.frameOutOfBounds ↔
      (∃ s, sf = some s ∧ (s < 0 ∨ v.nb_frames < s)) ∨
      (∃ e, ef = some e ∧ (e < 0 ∨ v.nb_frames < e)) :=
  vfr_foob_iff v sf ef

/-- C5: the audio-selection check fails with audioTrackOutOfRange exactly
when some requested index is outside 0 ≤ i < number of audio streams; in
particular the off-by-one index equal to the stream count fails. -/
theorem audio_selection_iff (n : Nat) (ats : List Int) :
    (check_audio_indices n ats = Except.error Err.audioTrackOutOfRange ↔
      ∃ i ∈ ats, ¬(0 ≤ i ∧ i < (n : Int)))
    ∧ check_audio_indices n [(n : Int)] =
        Except.error Err.audioTrackOutOfRange := by
  refine ⟨cai_error_iff n ats, ?_⟩
  rw [cai_error_iff]
  exact ⟨(n : Int), by simp, by simp⟩

/-- C6: any run failing a validation check — missing input file,
out-of-bounds frame bound, inverted range, bad audio index — ends in an
error before a plan exists, so the external tool is never invoked and no
output file is touched. -/
theorem validation_aborts (args : Args) (streams : List StreamInfo)
    (isfile : Bool)
    (h : isfile = false
      ∨ (∃ v auds sf, get_probe streams = Except.ok (some v, auds) ∧
          args.start_frame = some sf ∧ (sf < 0 ∨ v.nb_frames < sf))
      ∨ (∃ v auds ef, get_probe streams = Except.ok (some v, auds) ∧
          args.end_frame = some ef ∧ (ef < 0 ∨ v.nb_frames < ef))
      ∨ (∃ sf ef, args.start_frame = some sf ∧ args.end_frame = some ef ∧
          ef ≤ sf)
      ∨ (∃ vp auds s ats i, get_probe streams = Except.ok (vp, auds) ∧
          args.audio_tracks = some s ∧ parse_audio_tracks s = some ats ∧
          i ∈ ats ∧ ¬(0 ≤ i ∧ i < (auds.length : Int)))) :
    (∃ e, main_plan args streams isfile = Except.error e) ∧
    tool_invocations (main_plan args streams isfile) = 0 := by
  suffices hne : ∀ plan, main_plan args streams isfile ≠ Except.ok plan by
    cases hq : main_plan args streams isfile with
    | error e => exact ⟨⟨e, rfl⟩, rfl⟩
    | ok plan => exact absurd hq (hne plan)
  intro plan hm
  obtain ⟨v, auds, i_ats, hg, hvf, hva, hf, hz, hplan⟩ :=
    main_plan_ok args streams isfile plan hm
  rcases h with hfile | hsf | hef | hrange | haud
  · simp [hf] at hfile
  · obtain ⟨v', auds', sf, hg', hs, hb⟩ := hsf
    rw [hg] at hg'
    simp only [Except.ok.injEq, Prod.mk.injEq, Option.some.injEq] at hg'
    obtain ⟨hv, -⟩ := hg'
    subst hv
    have herr := (vfr_foob_iff v args.start_frame args.end_frame).mpr
      (Or.inl ⟨sf, hs, hb⟩)
    rw [hvf] at herr
    simp at herr
  · obtain ⟨v', auds', ef, hg', he, hb⟩ := hef
    rw [hg] at hg'
    simp only [Except.ok.injEq, Prod.mk.injEq, Option.some.injEq] at hg'
    obtain ⟨hv, -⟩ := hg'
    subst hv
    have herr := (vfr_foob_iff v args.start_frame args.end_frame).mpr
      (Or.inr ⟨ef, he, hb⟩)
    rw [hvf] at herr
    simp at herr
  · obtain ⟨sf, ef, hs, he, hle⟩ := hrange
    rw [hs, he] at hvf
    have := vfr_ok_range (some v) sf ef hvf
    omega
  · obtain ⟨vp', auds', s, ats, i, hg', hat, hparse, hi, hbad⟩ := haud
    rw [hg] at hg'
    simp only [Except.ok.injEq, Prod.mk.injEq] at hg'
    obtain ⟨-, hauds⟩ := hg'
    subst hauds
    rw [hat] at hva
    simp only [validate_audio_selection, hparse] at hva
    have hchk := (cai_error_iff auds.length ats).mpr ⟨i, hi, hbad⟩
    simp [hchk] at hva

/-- C6 witness: a missing input file aborts the run with an error and zero
tool invocations. -/
theorem validation_aborts_witness :
    (∃ e, main_plan c1_args [vstream300] false = Except.error e) ∧
    tool_invocations (main_plan c1_args [vstream300] false) = 0 :=
  validation_aborts c1_args [vstream300] false (Or.inl rfl)

/-- A request supplying the output path as the empty string. -/
def c9_args : Args :=
  { input := "a.mp4", start_frame := none, end_frame := none,
    audio_tracks := none, copy_video := false, no_loudnorm := false,
    output := some "" }

/-- The plan assembled for `c9_args`: the derived name, not "". -/
def c9_plan : Plan :=
  { ss := none, t := none, vcodec_copy := false,
    audio := AudioOut.passthrough, acodec := "copy",
    output_file := "a.converted.mp4" }

/-- A request supplying a non-empty output path. -/
def c9b_args : Args :=
  { input := "a.mp4", start_frame := none, end_frame := none,
    audio_tracks := none, copy_video := false, no_loudnorm := false,
    output := some "out.mkv" }

/-- The plan assembled for `c9b_args`. -/
def c9b_plan : Plan :=
  { ss := none, t := none, vcodec_copy := false,
    audio := AudioOut.passthrough, acodec := "copy",
    output_file := "out.mkv" }

/-- C9 counterexample: the user supplies the empty string as output value,
yet the plan uses the derived name instead of that value — `if args.output:`
is Python truthiness, so "" falls back to the default. -/
theorem output_path_counterexample :
    c9_args.output = some "" ∧
    main_plan c9_args [vstream300] true = Except.ok c9_plan ∧
    c9_plan.output_file ≠ "" := by
  have heq : main_plan c9_args [vstream300] true = Except.ok c9_plan := by
    simp [main_plan, get_probe, get_probe_loop, validate_frame_range,
      check_bound, validate_audio_selection, output_file_of, default_output,
      basename_chars, splitext_chars, last_dot_idx, split_on,
      compute_time_window, c9_args, vstream300, c9_plan]
  exact ⟨rfl, heq, by decide⟩

/-- C9 (amended): the plan's output path is the user-supplied value whenever
a non-empty one is given; when the output argument is absent — or empty,
which the script treats the same — it is `<stem>.converted<ext>` derived
from the input path's basename. -/
theorem output_path_amended (args : Args) (streams : List StreamInfo)
    (isfile : Bool) (plan : Plan)
    (hm : main_plan args streams isfile = Except.ok plan) :
    (∀ o, args.output = some o → o ≠ "" → plan.output_file = o)
    ∧ ((args.output = none ∨ args.output = some "") →
        plan.output_file = default_output args.input) := by
  obtain ⟨v, auds, i_ats, hg, hvf, hva, hf, hz, hplan⟩ :=
    main_plan_ok args streams isfile plan hm
  rw [hplan]
  constructor
  · intro o ho hne
    simp [output_file_of, ho, hne]
  · rintro (ho | ho) <;> simp [output_file_of, ho]

/-- C9 witness: a non-empty user path is used verbatim; an absent (here:
empty, equivalently) one falls back to the derived name. -/
theorem output_path_amended_witness :
    c9b_plan.output_file = "out.mkv" ∧
    c9_plan.output_file = default_output c9_args.input := by
  constructor
  · exact (output_path_amended c9b_args [vstream300] true c9b_plan
      (by simp [main_plan, get_probe, get_probe_loop, validate_frame_range,
        check_bound, validate_audio_selection, output_file_of, default_output,
        basename_chars, splitext_chars, last_dot_idx, split_on,
        compute_time_window, c9b_args, vstream300, c9b_plan])).1
      "out.mkv" rfl (by decide)
  · exact (output_path_amended c9_args [vstream300] true c9_plan
      (by simp [main_plan, get_probe, get_probe_loop, validate_frame_range,
        check_bound, validate_audio_selection, output_file_of, default_output,
        basename_chars, splitext_chars, last_dot_idx, split_on,
        compute_time_window, c9_args, vstream300, c9_plan])).2 (Or.inr rfl)

/-- A request selecting audio track 0 twice ("0,0"). -/
def c10_args : Args :=
  { input := "in.mp4", start_frame := none, end_frame := none,
    audio_tracks := some "0,0", copy_video := false, no_loudnorm := true,
    output := none }

/-- The plan assembled for `c10_args` on one video and one audio stream:
track 0 appears twice among the amix inputs. -/
def c10_plan : Plan :=
  { ss := none, t := none, vcodec_copy := false,
    audio := AudioOut.mix [0, 0] false, acodec := "aac",
    output_file := "in.converted.mp4" }

/-- Concrete evaluation of the selection parser on "0,0". -/
lemma parse00 : parse_audio_tracks "0,0" = some [0, 0] := by decide

/-- The script's run on `c10_args` with one video and one audio stream. -/
lemma c10_run : main_plan c10_args [vstream300, astream0] true =
    Except.ok c10_plan := by
  simp [main_plan, get_probe, get_probe_loop, validate_frame_range,
    check_bound, validate_audio_selection, parse00, check_audio_indices,
    output_file_of, default_output, basename_chars, splitext_chars,
    last_dot_idx, split_on, compute_time_window, c10_args, vstream300,
    astream0, c10_plan]

/-- C10: a selection that parses to a list with duplicate indices, all of
them valid positions, passes validation unchanged, and the plan's amix
filter receives one input per occurrence (its `inputs` count is the list
length, duplicates included). -/
theorem duplicate_tracks_mixed (n : Nat) (s : String) (ats : List Int)
    (hp : parse_audio_tracks s = some ats)
    (_hdup : ∃ i, 1 < ats.count i)
    (hall : ∀ i ∈ ats, 0 ≤ i ∧ i < (n : Int)) :
    validate_audio_selection n (some s) = Except.ok (some ats)
    ∧ ∀ args streams isfile plan vp auds,
        main_plan args streams isfile = Except.ok plan →
        args.audio_tracks = some s →
        get_probe streams = Except.ok (vp, auds) →
        auds.length = n →
        mix_tracks plan.audio = ats ∧ mix_inputs plan.audio = ats.length := by
  have hchk : ∀ m : Nat, m = n → check_audio_indices m ats = Except.ok () := by
    intro m hmn
    subst hmn
    unfold check_audio_indices
    rw [if_pos (List.all_eq_true.mpr fun i hi => decide_eq_true (hall i hi))]
  constructor
  · simp only [validate_audio_selection, hp, hchk n rfl]
  · intro args streams isfile plan vp auds hm hat hg hlen
    obtain ⟨v, auds', i_ats, hg', hvf, hva, hf, hz, hplan⟩ :=
      main_plan_ok args streams isfile plan hm
    rw [hg] at hg'
    simp only [Except.ok.injEq, Prod.mk.injEq] at hg'
    obtain ⟨-, hauds⟩ := hg'
    subst hauds
    rw [hat] at hva
    simp only [validate_audio_selection, hp, hchk auds.length hlen] at hva
    simp only [Except.ok.injEq] at hva
    rw [hplan, ← hva]
    simp [mix_tracks, mix_inputs]

/-- C10 witness: "0,0" on a file with one audio stream validates and mixes
track 0 twice (amix with 2 inputs). -/
theorem duplicate_tracks_mixed_witness :
    validate_audio_selection 1 (some "0,0") = Except.ok (some [0, 0])
    ∧ mix_tracks c10_plan.audio = [0, 0]
    ∧ mix_inputs c10_plan.audio = 2 := by
  have h := duplicate_tracks_mixed 1 "0,0" [0, 0] parse00
    ⟨0, by decide⟩ (by decide)
  have h2 := h.2 c10_args [vstream300, astream0] true c10_plan
    (some vstream300) [astream0] c10_run rfl
    (by simp [get_probe, get_probe_loop, vstream300, astream0]) rfl
  exact ⟨h.1, h2.1, h2.2⟩

/-- C4 witness: start 500 on a 300-frame video trips the out-of-bounds
error. -/
theorem frame_bounds_iff_witness :
    validate_frame_range (some vstream300) (some 500) (some 400) =
      Except.error Err.frameOutOfBounds :=
  (frame_bounds_iff vstream300 (some 500) (some 400)).mpr
    (Or.inl ⟨500, rfl, by decide⟩)

/-- C5 witness: index 2 on a file with 2 audio streams (off by one) fails. -/
theorem audio_selection_iff_witness :
    check_audio_indices 2 [(2 : Int)] =
      Except.error Err.audioTrackOutOfRange :=
  (audio_selection_iff 2 [(2 : Int)]).2
